import Mathlib

/-!
# Verification of the star-schema builder

Shallow embedding of `src/models/star_schema_model.py` (and the dashboard's
loader in `src/dashboard/app.py`) from the Electric-Product-Data-Analysis
repository, together with proofs of the specified properties.

Tables are modelled as Lean lists of structure rows; pandas column-wise
operations become list operations.  Python's `int(...)` applied to a decimal
string is modelled as a most-significant-digit-first fold over the digit
list, and `str(n)` / `.zfill(2)` / `strftime('%Y%m%d')` are modelled as
digit-list producers, so the numeric key computations in the source are
reproduced at the digit level rather than assumed.
-/

namespace StarSchema

/-- An opaque table cell value: the builder carries most attribute columns
through unchanged, so their contents only need equality and rendering. -/
inductive Value where
  | vNat : Nat → Value
  | vStr : String → Value
  | vNull : Value
deriving DecidableEq, Repr

/-! ## Decimal digit model of Python `int(...)` and `str(...)`

`valOfMSD ds` is the number denoted by the digit list `ds` written
most-significant first — exactly what Python's `int` does to a decimal
string.  `strDigits n` is the digit list of `str(n)`; `zfill2` is
`.zfill(2)`. -/

/-- Value of a most-significant-first digit list, as Python `int` computes it
(left fold `acc * 10 + digit`). -/
def valOfMSD (ds : List Nat) : Nat :=
  ds.foldl (fun a d => a * 10 + d) 0

/-- Little-endian digits of `n` (empty for 0), with explicit fuel so the
definition is structural and kernel-reducible. -/
def littleDigits : Nat → Nat → List Nat
  | 0, _ => []
  | fuel + 1, n => if n = 0 then [] else n % 10 :: littleDigits fuel (n / 10)

/-- Digit list of Python `str(n)` for a natural number, most-significant
digit first (`str(0) = "0"`). -/
def strDigits (n : Nat) : List Nat :=
  if n = 0 then [0] else (littleDigits n n).reverse

/-- Python `str.zfill(2)` on a digit list: left-pad with zeros to width 2. -/
def zfill2 (ds : List Nat) : List Nat :=
  List.replicate (2 - ds.length) 0 ++ ds

/-- `strftime('%m')`-style zero-padding also pads the year to width 4. -/
def zfill4 (ds : List Nat) : List Nat :=
  List.replicate (4 - ds.length) 0 ++ ds

/-! ## Calendar dates

Model of the Gregorian dates handled by `pandas.date_range` /
`pd.to_datetime` in the source. -/

/-- A calendar date (year, month, day). -/
structure Date where
  year : Nat
  month : Nat
  day : Nat
deriving DecidableEq, Repr

/-- Gregorian leap-year rule. -/
def isLeap (y : Nat) : Bool :=
  (y % 4 == 0 && y % 100 != 0) || (y % 400 == 0)

/-- Number of days in a month. -/
def daysInMonth (y m : Nat) : Nat :=
  if m = 2 then (if isLeap y then 29 else 28)
  else if m = 4 ∨ m = 6 ∨ m = 9 ∨ m = 11 then 30
  else 31

/-- A structurally valid calendar date. -/
def ValidDate (d : Date) : Prop :=
  1 ≤ d.month ∧ d.month ≤ 12 ∧ 1 ≤ d.day ∧ d.day ≤ daysInMonth d.year d.month

instance (d : Date) : Decidable (ValidDate d) := by
  unfold ValidDate; infer_instance

/-- Successor day in the calendar. -/
def nextDay (d : Date) : Date :=
  if d.day < daysInMonth d.year d.month then ⟨d.year, d.month, d.day + 1⟩
  else if d.month < 12 then ⟨d.year, d.month + 1, 1⟩
  else ⟨d.year + 1, 1, 1⟩

/-- Lexicographic (= chronological) order on dates. -/
def dateLe (a b : Date) : Bool :=
  a.year < b.year ∨ (a.year = b.year ∧
    (a.month < b.month ∨ (a.month = b.month ∧ a.day ≤ b.day)))

/-- The inclusive daily range `pandas.date_range(start, end, freq='D')`,
with explicit fuel (the range used by the source spans 730 days). -/
def dateRangeFrom : Nat → Date → Date → List Date
  | 0, _, _ => []
  | fuel + 1, d, e => if dateLe d e then d :: dateRangeFrom fuel (nextDay d) e else []

/-- `pandas.date_range(start, end, freq='D')` for the ranges this program
uses (fuel 1000 covers the source's 730-day range). -/
def date_range (s e : Date) : List Date :=
  dateRangeFrom 1000 s e

/-- Digit list of `strftime('%Y%m%d')` for a date. -/
def ymdDigits (d : Date) : List Nat :=
  zfill4 (strDigits d.year) ++ zfill2 (strDigits d.month) ++ zfill2 (strDigits d.day)

/-- `int(strftime('%Y%m%d'))`: the `date_key` computation of the source
(`star_schema_model.py` lines 48 and 115). -/
def ymdKey (d : Date) : Nat :=
  valOfMSD (ymdDigits d)

/-- pandas `dayofweek` (Monday = 0 … Sunday = 6), via Zeller's congruence. -/
def dayOfWeek (dt : Date) : Nat :=
  let m := if dt.month ≤ 2 then dt.month + 12 else dt.month
  let y := if dt.month ≤ 2 then dt.year - 1 else dt.year
  let k := y % 100
  let j := y / 100
  (dt.day + (13 * (m + 1)) / 5 + k + k / 4 + j / 4 + 5 * j + 5) % 7

/-- pandas `day_name()` values, indexed by `dayOfWeek`. -/
def dayNameOf (dow : Nat) : String :=
  (["Monday", "Tuesday", "Wednesday", "Thursday", "Friday", "Saturday",
    "Sunday"].getD dow "")

/-- pandas `month_name()` values, indexed by month (1-based). -/
def monthNameOf (m : Nat) : String :=
  (["January", "February", "March", "April", "May", "June", "July",
    "August", "September", "October", "November", "December"].getD (m - 1) "")

/-! ## Surrogate keys

`range(1, len(df) + 1)` assigned as a column: each row is paired with its
1-based position. -/

/-- Pair each row with a sequential key starting at `start`
(`df['key'] = range(start, start + len(df))`). -/
def addKeys (start : Nat) : List α → List (Nat × α)
  | [] => []
  | r :: rs => (start, r) :: addKeys (start + 1) rs

/-! ## Date dimension (`create_date_dimension`, lines 24–51) -/

/-- One row of the date dimension. -/
structure DateDimRow where
  date_id : Nat
  date : Date
  day : Nat
  month : Nat
  quarter : Nat
  year : Nat
  day_of_week : Nat
  day_name : String
  month_name : String
  is_weekend : Bool
  date_key : Nat
deriving DecidableEq, Repr

/-- Column order of the date dimension frame (construction order, with
`date_key` appended last as in the source). -/
def dateDimCols : List String :=
  ["date_id", "date", "day", "month", "quarter", "year", "day_of_week",
   "day_name", "month_name", "is_weekend", "date_key"]

/-- `create_date_dimension`: one row per day of 2022-01-01 … 2023-12-31,
with `date_id = range(1, len + 1)`, calendar-derived fields, and
`date_key = int(strftime('%Y%m%d'))`. -/
def create_date_dimension : List DateDimRow :=
  (addKeys 1 (date_range ⟨2022, 1, 1⟩ ⟨2023, 12, 31⟩)).map fun p =>
    { date_id := p.1
      date := p.2
      day := p.2.day
      month := p.2.month
      quarter := (p.2.month + 2) / 3
      year := p.2.year
      day_of_week := dayOfWeek p.2
      day_name := dayNameOf (dayOfWeek p.2)
      month_name := monthNameOf p.2.month
      is_weekend := dayOfWeek p.2 = 5 ∨ dayOfWeek p.2 = 6
      date_key := ymdKey p.2 }

/-! ## Boolean list checkers (kernel-evaluable) with bridges to `Prop` -/

/-- Boolean chain check: `f` holds between each adjacent pair. -/
def chainB (f : α → α → Bool) : List α → Bool
  | [] => true
  | [_] => true
  | a :: b :: t => f a b && chainB f (b :: t)

/-- Boolean "all" check. -/
def allB (f : α → Bool) : List α → Bool
  | [] => true
  | a :: t => f a && allB f t

/-! ## Entity dimensions (lines 53–106)

Each builder selects the listed columns, appends a dense surrogate key
column `range(1, len + 1)`, and reorders the columns to put the key first.
A dimension row is modelled as the pair (surrogate key, selected row). -/

/-- A cleaned products row, restricted to the 11 columns
`create_product_dimension` selects. -/
structure ProductsRow where
  product_id : String
  product_name : Value
  category : Value
  subcategory : Value
  energy_rating : Value
  price : Value
  manufacturing_cost : Value
  warranty_years : Value
  weight_kg : Value
  profit_margin : Value
  launch_date : Value
deriving DecidableEq, Repr

/-- The column list `create_product_dimension` selects (line 56). -/
def productSelectCols : List String :=
  ["product_id", "product_name", "category", "subcategory",
   "energy_rating", "price", "manufacturing_cost", "warranty_years",
   "weight_kg", "profit_margin", "launch_date"]

/-- `cols = ['product_key'] + [c for c in columns if c != 'product_key']`
(line 66), applied to the selected columns plus the appended key. -/
def productDimCols : List String :=
  "product_key" :: (productSelectCols ++ ["product_key"]).filter
    (fun c => ¬ c = "product_key")

/-- `create_product_dimension` (lines 53–70). -/
def create_product_dimension (products_df : List ProductsRow) :
    List (Nat × ProductsRow) :=
  addKeys 1 products_df

/-- A cleaned customers row, restricted to the 8 columns
`create_customer_dimension` selects. -/
structure CustomersRow where
  customer_id : String
  customer_name : Value
  country : Value
  segment : Value
  acquisition_date : Value
  lifetime_value : Value
  acquisition_year : Value
  acquisition_month : Value
deriving DecidableEq, Repr

/-- The column list `create_customer_dimension` selects (line 75). -/
def customerSelectCols : List String :=
  ["customer_id", "customer_name", "country", "segment",
   "acquisition_date", "lifetime_value", "acquisition_year",
   "acquisition_month"]

/-- Key-first reorder for the customer dimension (line 84). -/
def customerDimCols : List String :=
  "customer_key" :: (customerSelectCols ++ ["customer_key"]).filter
    (fun c => ¬ c = "customer_key")

/-- `create_customer_dimension` (lines 72–88). -/
def create_customer_dimension (customers_df : List CustomersRow) :
    List (Nat × CustomersRow) :=
  addKeys 1 customers_df

/-- A cleaned stores row, restricted to the 7 columns
`create_store_dimension` selects. -/
structure StoresRow where
  store_id : String
  store_name : Value
  country : Value
  store_type : Value
  opening_date : Value
  size_sqm : Value
  opening_year : Value
deriving DecidableEq, Repr

/-- The column list `create_store_dimension` selects (line 93). -/
def storeSelectCols : List String :=
  ["store_id", "store_name", "country", "store_type", "opening_date",
   "size_sqm", "opening_year"]

/-- Key-first reorder for the store dimension (line 102). -/
def storeDimCols : List String :=
  "store_key" :: (storeSelectCols ++ ["store_key"]).filter
    (fun c => ¬ c = "store_key")

/-- `create_store_dimension` (lines 90–106). -/
def create_store_dimension (stores_df : List StoresRow) :
    List (Nat × StoresRow) :=
  addKeys 1 stores_df

/-! ## Fact tables (lines 108–175) -/

/-- A Python `dict(zip(keys, vals))` lookup: the value bound to the LAST
pair with the given key (later `dict` insertions overwrite earlier ones);
`Series.map` yields NaN (`none`) for keys absent from the dict. -/
def dictGet (pairs : List (String × Nat)) (k : String) : Option Nat :=
  (pairs.reverse.find? (fun p => p.1 == k)).map Prod.snd

/-- A cleaned sales row, restricted to the columns `create_sales_fact`
uses.  `transaction_date` is already a parsed date (`pd.to_datetime` on the
cleaned column is the identity up to representation). -/
structure SalesRow where
  transaction_id : Value
  transaction_date : Date
  product_id : String
  customer_id : String
  store_id : String
  quantity : Value
  unit_price : Value
  discount : Value
  final_price : Value
  total_amount : Value
  payment_method : Value
deriving DecidableEq, Repr

/-- One row of the sales fact table. -/
structure SalesFactRow where
  sales_key : Nat
  transaction_id : Value
  date_key : Nat
  product_key : Option Nat
  customer_key : Option Nat
  store_key : Option Nat
  quantity : Value
  unit_price : Value
  discount : Value
  final_price : Value
  total_amount : Value
  payment_method : Value
deriving DecidableEq, Repr

/-- The column list `create_sales_fact` selects (lines 128–131). -/
def salesFactSelectCols : List String :=
  ["transaction_id", "date_key", "product_key", "customer_key", "store_key",
   "quantity", "unit_price", "discount", "final_price", "total_amount",
   "payment_method"]

/-- Key-first reorder for the sales fact (line 137). -/
def salesFactCols : List String :=
  "sales_key" :: (salesFactSelectCols ++ ["sales_key"]).filter
    (fun c => ¬ c = "sales_key")

/-- `create_sales_fact` (lines 108–141): compute `date_key` directly from
the transaction date, resolve the three natural keys through dict maps
built from the dimensions (unmatched keys become `none`), select the fact
columns, and append a dense `sales_key`.  The `date_dim` argument is
accepted but never used, exactly as in the source. -/
def create_sales_fact (sales_df : List SalesRow)
    (product_dim : List (Nat × ProductsRow))
    (customer_dim : List (Nat × CustomersRow))
    (store_dim : List (Nat × StoresRow))
    (date_dim : List DateDimRow) : List SalesFactRow :=
  let product_key_map := product_dim.map fun p => (p.2.product_id, p.1)
  let customer_key_map := customer_dim.map fun p => (p.2.customer_id, p.1)
  let store_key_map := store_dim.map fun p => (p.2.store_id, p.1)
  (addKeys 1 sales_df).map fun q =>
    { sales_key := q.1
      transaction_id := q.2.transaction_id
      date_key := ymdKey q.2.transaction_date
      product_key := dictGet product_key_map q.2.product_id
      customer_key := dictGet customer_key_map q.2.customer_id
      store_key := dictGet store_key_map q.2.store_id
      quantity := q.2.quantity
      unit_price := q.2.unit_price
      discount := q.2.discount
      final_price := q.2.final_price
      total_amount := q.2.total_amount
      payment_method := q.2.payment_method }

/-- A cleaned performance row, restricted to the columns
`create_performance_fact` uses (`year` and `month` are the integer fields
derived upstream from `year_month`). -/
structure PerfRow where
  product_id : String
  year : Nat
  month : Nat
  energy_consumption_kwh : Value
  failure_rate : Value
  customer_satisfaction : Value
  return_rate : Value
  warranty_claims : Value
deriving DecidableEq, Repr

/-- One row of the performance fact table. -/
structure PerfFactRow where
  performance_key : Nat
  date_key : Nat
  product_key : Option Nat
  energy_consumption_kwh : Value
  failure_rate : Value
  customer_satisfaction : Value
  return_rate : Value
  warranty_claims : Value
deriving DecidableEq, Repr

/-- The column list `create_performance_fact` selects (lines 162–165). -/
def perfFactSelectCols : List String :=
  ["date_key", "product_key", "energy_consumption_kwh", "failure_rate",
   "customer_satisfaction", "return_rate", "warranty_claims"]

/-- Key-first reorder for the performance fact (line 171). -/
def perfFactCols : List String :=
  "performance_key" :: (perfFactSelectCols ++ ["performance_key"]).filter
    (fun c => ¬ c = "performance_key")

/-- `date_key = int(str(year) + str(month).zfill(2) + '01')`
(lines 149–153), at the digit level. -/
def perfDateKey (y m : Nat) : Nat :=
  valOfMSD (strDigits y ++ zfill2 (strDigits m) ++ [0, 1])

/-- `create_performance_fact` (lines 143–175).  The `date_dim` argument is
accepted but never used, exactly as in the source. -/
def create_performance_fact (performance_df : List PerfRow)
    (product_dim : List (Nat × ProductsRow))
    (date_dim : List DateDimRow) : List PerfFactRow :=
  let product_key_map := product_dim.map fun p => (p.2.product_id, p.1)
  (addKeys 1 performance_df).map fun q =>
    { performance_key := q.1
      date_key := perfDateKey q.2.year q.2.month
      product_key := dictGet product_key_map q.2.product_id
      energy_consumption_kwh := q.2.energy_consumption_kwh
      failure_rate := q.2.failure_rate
      customer_satisfaction := q.2.customer_satisfaction
      return_rate := q.2.return_rate
      warranty_claims := q.2.warranty_claims }

/-! ## Whole-schema build (`main`, lines 196–234) -/

/-- The six tables of one star-schema build. -/
structure Schema where
  date_dim : List DateDimRow
  product_dim : List (Nat × ProductsRow)
  customer_dim : List (Nat × CustomersRow)
  store_dim : List (Nat × StoresRow)
  sales_fact : List SalesFactRow
  performance_fact : List PerfFactRow
deriving DecidableEq, Repr

/-- The build sequence of `main` (lines 207–215): dimensions first, then
the two fact tables joined against them. -/
def build_star_schema (products_df : List ProductsRow)
    (customers_df : List CustomersRow) (stores_df : List StoresRow)
    (sales_df : List SalesRow) (performance_df : List PerfRow) : Schema :=
  let date_dim := create_date_dimension
  let product_dim := create_product_dimension products_df
  let customer_dim := create_customer_dimension customers_df
  let store_dim := create_store_dimension stores_df
  let sales_fact := create_sales_fact sales_df product_dim customer_dim store_dim date_dim
  let performance_fact := create_performance_fact performance_df product_dim date_dim
  { date_dim := date_dim
    product_dim := product_dim
    customer_dim := customer_dim
    store_dim := store_dim
    sales_fact := sales_fact
    performance_fact := performance_fact }

/-! ## Dashboard-side date lookup

The dashboard joins fact rows against the date dimension with a left merge
on `date_key` (`app.py` line 37); per fact row that is a lookup of
`date_key` in the dimension, `none` when unmatched. -/

/-- The dimension row a fact row's `date_key` resolves to, if any. -/
def dateRef (date_dim : List DateDimRow) (k : Nat) : Option DateDimRow :=
  date_dim.find? fun r => r.date_key == k

/-! ## CSV persistence (`save_star_schema`, lines 177–194, and the
dashboard loader `load_star_schema_data`, `app.py` lines 19–31)

`DataFrame.to_csv(index=False)` writes a header line and one line per row,
separating cells with `,`, terminating lines with `\n`, and quoting
minimally: a cell containing the delimiter, the quote character or the
line terminator is wrapped in `"` with embedded quotes doubled.
`read_csv` parses that format back.  Both are modelled at the character
level over `List Char`. -/

/-- A cell must be quoted when it contains a delimiter, quote or newline
(`csv.QUOTE_MINIMAL`). -/
def needsQuote (cell : List Char) : Bool :=
  cell.any fun ch => ch = ',' || ch = '"' || ch = '\n'

/-- Double every quote character (CSV escaping inside a quoted cell). -/
def escapeQuotes : List Char → List Char
  | [] => []
  | c :: rest =>
      if c = '"' then '"' :: '"' :: escapeQuotes rest
      else c :: escapeQuotes rest

/-- Render one cell with minimal quoting. -/
def renderCell (cell : List Char) : List Char :=
  if needsQuote cell then '"' :: (escapeQuotes cell ++ ['"']) else cell

/-- Render one record: cells joined by `,`. -/
def renderRecord : List (List Char) → List Char
  | [] => []
  | [c] => renderCell c
  | c :: cs => renderCell c ++ ',' :: renderRecord cs

/-- Render a whole file: every record (header or data row) is followed by
the line terminator, as `to_csv` does. -/
def renderFile : List (List (List Char)) → List Char
  | [] => []
  | rec :: recs => renderRecord rec ++ '\n' :: renderFile recs

/-- Scan an unquoted cell: consume characters up to the next delimiter or
line terminator. -/
def takeCell : List Char → List Char × List Char
  | [] => ([], [])
  | c :: rest =>
      if c = ',' ∨ c = '\n' then ([], c :: rest)
      else
        let p := takeCell rest
        (c :: p.1, p.2)

/-- Scan a quoted cell (input starts after the opening quote): a doubled
quote is a literal quote, a single quote closes the cell. -/
def takeQCell : List Char → List Char × List Char
  | [] => ([], [])
  | c :: rest =>
      if c = '"' then
        match rest with
        | [] => ([], [])
        | c2 :: rest2 =>
            if c2 = '"' then
              let p := takeQCell rest2
              ('"' :: p.1, p.2)
            else ([], rest)
      else
        let p := takeQCell rest
        (c :: p.1, p.2)

/-- Scan one cell: a leading quote opens a quoted cell, anything else is
an unquoted cell. -/
def scanCell : List Char → List Char × List Char
  | [] => takeCell []
  | c :: rest => if c = '"' then takeQCell rest else takeCell (c :: rest)

/-- Parse the cells of one record, returning them and the input after the
record's terminator. -/
def parseCells : Nat → List Char → List (List Char) × List Char
  | 0, s => ([], s)
  | fuel + 1, s =>
      match scanCell s with
      | (cell, ',' :: rest) =>
          let q := parseCells fuel rest
          (cell :: q.1, q.2)
      | (cell, '\n' :: rest) => ([cell], rest)
      | (cell, other) => ([cell], other)

/-- Parse all records of a file. -/
def parseRecordsAux : Nat → List Char → List (List (List Char))
  | 0, _ => []
  | fuel + 1, s =>
      if s = [] then []
      else
        let q := parseCells (s.length + 1) s
        q.1 :: parseRecordsAux fuel q.2

/-- `read_csv`, at the record level: the list of records (header first). -/
def parseCSV (s : List Char) : List (List (List Char)) :=
  parseRecordsAux (s.length + 1) s

/-! ### Rendering the six tables' cells -/

/-- The character of a decimal digit. -/
def digitChar (d : Nat) : Char := Char.ofNat (48 + d)

/-- Decimal rendering of a natural number. -/
def cellOfNat (n : Nat) : List Char := (strDigits n).map digitChar

/-- Rendering of an opaque cell value (`NaN` is written as the empty
cell). -/
def cellOfValue : Value → List Char
  | .vNat n => cellOfNat n
  | .vStr s => s.toList
  | .vNull => []

/-- Rendering of a nullable surrogate key (unmatched keys are NaN, written
as an empty cell). -/
def cellOfKey : Option Nat → List Char
  | some k => cellOfNat k
  | none => []

/-- Rendering of a boolean cell (`True` / `False`). -/
def cellOfBool (b : Bool) : List Char :=
  if b then "True".toList else "False".toList

/-- Rendering of a date cell (ISO `YYYY-MM-DD`). -/
def cellOfDate (d : Date) : List Char :=
  (zfill4 (strDigits d.year)).map digitChar ++ '-' ::
    ((zfill2 (strDigits d.month)).map digitChar ++ '-' ::
      (zfill2 (strDigits d.day)).map digitChar)

/-- The cells of one date-dimension row, in `dateDimCols` order. -/
def dateDimCells (r : DateDimRow) : List (List Char) :=
  [cellOfNat r.date_id, cellOfDate r.date, cellOfNat r.day,
   cellOfNat r.month, cellOfNat r.quarter, cellOfNat r.year,
   cellOfNat r.day_of_week, r.day_name.toList, r.month_name.toList,
   cellOfBool r.is_weekend, cellOfNat r.date_key]

/-- The cells of one product-dimension row, in `productDimCols` order
(surrogate key first). -/
def productDimCells (p : Nat × ProductsRow) : List (List Char) :=
  [cellOfNat p.1, p.2.product_id.toList, cellOfValue p.2.product_name,
   cellOfValue p.2.category, cellOfValue p.2.subcategory,
   cellOfValue p.2.energy_rating, cellOfValue p.2.price,
   cellOfValue p.2.manufacturing_cost, cellOfValue p.2.warranty_years,
   cellOfValue p.2.weight_kg, cellOfValue p.2.profit_margin,
   cellOfValue p.2.launch_date]

/-- The cells of one customer-dimension row, in `customerDimCols` order. -/
def customerDimCells (p : Nat × CustomersRow) : List (List Char) :=
  [cellOfNat p.1, p.2.customer_id.toList, cellOfValue p.2.customer_name,
   cellOfValue p.2.country, cellOfValue p.2.segment,
   cellOfValue p.2.acquisition_date, cellOfValue p.2.lifetime_value,
   cellOfValue p.2.acquisition_year, cellOfValue p.2.acquisition_month]

/-- The cells of one store-dimension row, in `storeDimCols` order. -/
def storeDimCells (p : Nat × StoresRow) : List (List Char) :=
  [cellOfNat p.1, p.2.store_id.toList, cellOfValue p.2.store_name,
   cellOfValue p.2.country, cellOfValue p.2.store_type,
   cellOfValue p.2.opening_date, cellOfValue p.2.size_sqm,
   cellOfValue p.2.opening_year]

/-- The cells of one sales-fact row, in `salesFactCols` order. -/
def salesFactCells (r : SalesFactRow) : List (List Char) :=
  [cellOfNat r.sales_key, cellOfValue r.transaction_id,
   cellOfNat r.date_key, cellOfKey r.product_key, cellOfKey r.customer_key,
   cellOfKey r.store_key, cellOfValue r.quantity, cellOfValue r.unit_price,
   cellOfValue r.discount, cellOfValue r.final_price,
   cellOfValue r.total_amount, cellOfValue r.payment_method]

/-- The cells of one performance-fact row, in `perfFactCols` order. -/
def perfFactCells (r : PerfFactRow) : List (List Char) :=
  [cellOfNat r.performance_key, cellOfNat r.date_key,
   cellOfKey r.product_key, cellOfValue r.energy_consumption_kwh,
   cellOfValue r.failure_rate, cellOfValue r.customer_satisfaction,
   cellOfValue r.return_rate, cellOfValue r.warranty_claims]

/-- `save_star_schema` (lines 177–194): write the six tables as six named
CSV artifacts under `output_dir` (the filesystem is modelled as the list
of written files). -/
def save_star_schema (tables : Schema) (output_dir : String) :
    List (String × List Char) :=
  [(output_dir ++ "/dim_date.csv",
    renderFile ((dateDimCols.map String.toList) ::
      tables.date_dim.map dateDimCells)),
   (output_dir ++ "/dim_product.csv",
    renderFile ((productDimCols.map String.toList) ::
      tables.product_dim.map productDimCells)),
   (output_dir ++ "/dim_customer.csv",
    renderFile ((customerDimCols.map String.toList) ::
      tables.customer_dim.map customerDimCells)),
   (output_dir ++ "/dim_store.csv",
    renderFile ((storeDimCols.map String.toList) ::
      tables.store_dim.map storeDimCells)),
   (output_dir ++ "/fact_sales.csv",
    renderFile ((salesFactCols.map String.toList) ::
      tables.sales_fact.map salesFactCells)),
   (output_dir ++ "/fact_performance.csv",
    renderFile ((perfFactCols.map String.toList) ::
      tables.performance_fact.map perfFactCells))]

/-- `pd.read_csv` of one artifact from the modelled filesystem. -/
def readCSVTable (fs : List (String × List Char)) (path : String) :
    Option (List (List (List Char))) :=
  (fs.find? fun p => p.1 == path).map fun p => parseCSV p.2

/-- `load_star_schema_data` (`app.py` lines 19–31): read the six artifacts
back; `none` if any artifact is missing. -/
def load_star_schema_data (fs : List (String × List Char))
    (data_dir : String) :
    Option (List (List (List Char)) × List (List (List Char)) ×
      List (List (List Char)) × List (List (List Char)) ×
      List (List (List Char)) × List (List (List Char))) := do
  let dim_date ← readCSVTable fs (data_dir ++ "/dim_date.csv")
  let dim_product ← readCSVTable fs (data_dir ++ "/dim_product.csv")
  let dim_customer ← readCSVTable fs (data_dir ++ "/dim_customer.csv")
  let dim_store ← readCSVTable fs (data_dir ++ "/dim_store.csv")
  let fact_sales ← readCSVTable fs (data_dir ++ "/fact_sales.csv")
  let fact_performance ← readCSVTable fs (data_dir ++ "/fact_performance.csv")
  pure (dim_date, dim_product, dim_customer, dim_store, fact_sales,
    fact_performance)

/-! ## Helper lemmas -/

theorem foldl_val_eq (L : List Nat) :
    ∀ a : Nat, L.foldl (fun x d => x * 10 + d) a = a * 10 ^ L.length + valOfMSD L := by
  induction L with
  | nil => intro a; simp [valOfMSD]
  | cons d L ih =>
      intro a
      show L.foldl _ (a * 10 + d) = _
      rw [ih (a * 10 + d)]
      have hd : valOfMSD (d :: L) = d * 10 ^ L.length + valOfMSD L := by
        show L.foldl _ (0 * 10 + d) = _
        rw [ih (0 * 10 + d)]; ring_nf
      rw [hd]
      simp [List.length_cons]
      ring

theorem valOfMSD_append (A B : List Nat) :
    valOfMSD (A ++ B) = valOfMSD A * 10 ^ B.length + valOfMSD B := by
  unfold valOfMSD
  rw [List.foldl_append]
  exact foldl_val_eq B _

theorem valOfMSD_littleDigits_reverse :
    ∀ fuel n : Nat, n ≤ fuel → valOfMSD ((littleDigits fuel n).reverse) = n := by
  intro fuel
  induction fuel with
  | zero =>
      intro n hn
      interval_cases n
      simp [littleDigits, valOfMSD]
  | succ f ih =>
      intro n hn
      by_cases h0 : n = 0
      · subst h0; simp [littleDigits, valOfMSD]
      · have hrec : n / 10 ≤ f := by
          have h1 : n / 10 < n := Nat.div_lt_self (Nat.pos_of_ne_zero h0) (by norm_num)
          omega
        rw [littleDigits]
        simp only [h0, if_false, List.reverse_cons]
        rw [valOfMSD_append, ih (n / 10) hrec]
        simp [valOfMSD]
        omega

theorem valOfMSD_strDigits (n : Nat) : valOfMSD (strDigits n) = n := by
  by_cases h0 : n = 0
  · subst h0; simp [strDigits, valOfMSD]
  · rw [strDigits]
    simp only [h0, if_false]
    exact valOfMSD_littleDigits_reverse n n (Nat.le_refl n)

theorem valOfMSD_zfill2 (ds : List Nat) : valOfMSD (zfill2 ds) = valOfMSD ds := by
  rw [zfill2, valOfMSD_append]
  have : valOfMSD (List.replicate (2 - ds.length) 0) = 0 := by
    generalize 2 - ds.length = k
    induction k with
    | zero => simp [valOfMSD]
    | succ m ih =>
        rw [List.replicate_succ]
        show valOfMSD ([0] ++ List.replicate m 0) = 0
        rw [valOfMSD_append, ih]
        simp [valOfMSD]
  simp [this]

theorem length_zfill2 (ds : List Nat) (h : ds.length ≤ 2) :
    (zfill2 ds).length = 2 := by
  simp [zfill2]
  omega

theorem length_strDigits_le_two (m : Nat) (h : m ≤ 99) :
    (strDigits m).length ≤ 2 := by
  by_cases h0 : m = 0
  · subst h0; simp [strDigits]
  · rw [strDigits]
    simp only [h0, if_false, List.length_reverse]
    match m, h0 with
    | m, _ =>
      rcases Nat.lt_or_ge m 10 with h10 | h10
      · have : littleDigits m m = m % 10 :: littleDigits (m - 1) (m / 10) := by
          cases m with
          | zero => omega
          | succ k => simp [littleDigits, Nat.succ_ne_zero]
        rw [this]
        have : m / 10 = 0 := Nat.div_eq_of_lt h10
        rw [this]
        cases m with
        | zero => omega
        | succ k =>
          simp only [List.length_cons]
          cases k <;> simp [littleDigits]
      · -- 10 ≤ m ≤ 99: two digit steps
        cases m with
        | zero => omega
        | succ k =>
          rw [littleDigits]
          simp only [Nat.succ_ne_zero, if_false, List.length_cons]
          have hq1 : 1 ≤ (k + 1) / 10 := by omega
          have hq9 : (k + 1) / 10 ≤ 9 := by omega
          have hk : (k + 1) / 10 ≤ k := by omega
          have step : ∀ fuel q, 1 ≤ q → q ≤ 9 → q ≤ fuel →
              (littleDigits fuel q).length = 1 := by
            intro fuel q hq1 hq9 hqf
            cases fuel with
            | zero => omega
            | succ f =>
              rw [littleDigits]
              have hqz : ¬ q = 0 := by omega
              simp only [hqz, if_false, List.length_cons]
              have : q / 10 = 0 := Nat.div_eq_of_lt (by omega)
              rw [this]
              cases f <;> simp [littleDigits]
          rw [step k ((k + 1) / 10) hq1 hq9 hk]

theorem valOfMSD_replicate_zero_append (k : Nat) (L : List Nat) :
    valOfMSD (List.replicate k 0 ++ L) = valOfMSD L := by
  rw [valOfMSD_append]
  have hz : valOfMSD (List.replicate k 0) = 0 := by
    induction k with
    | zero => simp [valOfMSD]
    | succ m ih =>
        rw [List.replicate_succ]
        show valOfMSD ([0] ++ List.replicate m 0) = 0
        rw [valOfMSD_append, ih]
        simp [valOfMSD]
  simp [hz]

theorem valOfMSD_zfill4 (ds : List Nat) : valOfMSD (zfill4 ds) = valOfMSD ds :=
  valOfMSD_replicate_zero_append _ ds

/-- For two-digit-bounded month and day, the `YYYYMMDD` key is the familiar
arithmetic expression (the left-padding of the year does not change its
value, so no hypothesis on the year is needed). -/
theorem ymdKey_eq (d : Date) (hm : d.month ≤ 99) (hd : d.day ≤ 99) :
    ymdKey d = d.year * 10000 + d.month * 100 + d.day := by
  have hlm : (zfill2 (strDigits d.month)).length = 2 :=
    length_zfill2 _ (length_strDigits_le_two _ hm)
  have hld : (zfill2 (strDigits d.day)).length = 2 :=
    length_zfill2 _ (length_strDigits_le_two _ hd)
  rw [ymdKey, ymdDigits, valOfMSD_append, valOfMSD_append, hlm, hld,
    valOfMSD_zfill4, valOfMSD_zfill2, valOfMSD_zfill2,
    valOfMSD_strDigits, valOfMSD_strDigits, valOfMSD_strDigits]
  ring

theorem addKeys_length (start : Nat) (l : List α) :
    (addKeys start l).length = l.length := by
  induction l generalizing start with
  | nil => rfl
  | cons r rs ih => simp [addKeys, ih]

theorem addKeys_get (l : List α) :
    ∀ (start i : Nat) (h : i < (addKeys start l).length),
      (addKeys start l).get ⟨i, h⟩ =
        (start + i, l.get ⟨i, by rw [addKeys_length] at h; exact h⟩) := by
  induction l with
  | nil => intro start i h; simp [addKeys] at h
  | cons r rs ih =>
      intro start i h
      cases i with
      | zero => simp [addKeys]
      | succ n =>
          have hn : n < (addKeys (start + 1) rs).length := by
            simpa [addKeys] using h
          simp only [addKeys, List.get_cons_succ]
          rw [ih (start + 1) n hn]
          simp [Nat.add_assoc, Nat.add_comm 1 n]

theorem addKeys_map_snd (start : Nat) (l : List α) :
    (addKeys start l).map Prod.snd = l := by
  induction l generalizing start with
  | nil => rfl
  | cons r rs ih => simp [addKeys, ih]

theorem addKeys_map_fst (l : List α) :
    ∀ start : Nat, (addKeys start l).map Prod.fst = List.range' start l.length := by
  induction l with
  | nil => intro start; rfl
  | cons r rs ih =>
      intro start
      simp [addKeys, List.range'_succ, ih]

theorem chainB_chain' (f : α → α → Bool) :
    ∀ l : List α, chainB f l = true → List.Chain' (fun a b => f a b = true) l := by
  intro l
  induction l with
  | nil => intro _; exact List.chain'_nil
  | cons a t ih =>
      cases t with
      | nil => intro _; simp
      | cons b t' =>
          intro h
          rw [chainB, Bool.and_eq_true] at h
          exact List.chain'_cons.mpr ⟨h.1, ih h.2⟩

theorem allB_forall (f : α → Bool) :
    ∀ l : List α, allB f l = true → ∀ x ∈ l, f x = true := by
  intro l
  induction l with
  | nil => intro _ x hx; cases hx
  | cons a t ih =>
      intro h x hx
      rw [allB, Bool.and_eq_true] at h
      rcases List.mem_cons.mp hx with rfl | hxt
      · exact h.1
      · exact ih h.2 x hxt


theorem create_sales_fact_length (sales_df : List SalesRow)
    (product_dim : List (Nat × ProductsRow))
    (customer_dim : List (Nat × CustomersRow))
    (store_dim : List (Nat × StoresRow)) (date_dim : List DateDimRow) :
    (create_sales_fact sales_df product_dim customer_dim store_dim
      date_dim).length = sales_df.length := by
  simp [create_sales_fact, addKeys_length]

theorem create_performance_fact_length (performance_df : List PerfRow)
    (product_dim : List (Nat × ProductsRow)) (date_dim : List DateDimRow) :
    (create_performance_fact performance_df product_dim date_dim).length =
      performance_df.length := by
  simp [create_performance_fact, addKeys_length]

theorem create_sales_fact_get (sales_df : List SalesRow)
    (product_dim : List (Nat × ProductsRow))
    (customer_dim : List (Nat × CustomersRow))
    (store_dim : List (Nat × StoresRow)) (date_dim : List DateDimRow)
    (i : Nat) (hi : i < sales_df.length) :
    (create_sales_fact sales_df product_dim customer_dim store_dim
        date_dim).get ⟨i, by rw [create_sales_fact_length]; exact hi⟩ =
      { sales_key := i + 1
        transaction_id := (sales_df.get ⟨i, hi⟩).transaction_id
        date_key := ymdKey (sales_df.get ⟨i, hi⟩).transaction_date
        product_key := dictGet (product_dim.map fun p =>
          (p.2.product_id, p.1)) (sales_df.get ⟨i, hi⟩).product_id
        customer_key := dictGet (customer_dim.map fun p =>
          (p.2.customer_id, p.1)) (sales_df.get ⟨i, hi⟩).customer_id
        store_key := dictGet (store_dim.map fun p =>
          (p.2.store_id, p.1)) (sales_df.get ⟨i, hi⟩).store_id
        quantity := (sales_df.get ⟨i, hi⟩).quantity
        unit_price := (sales_df.get ⟨i, hi⟩).unit_price
        discount := (sales_df.get ⟨i, hi⟩).discount
        final_price := (sales_df.get ⟨i, hi⟩).final_price
        total_amount := (sales_df.get ⟨i, hi⟩).total_amount
        payment_method := (sales_df.get ⟨i, hi⟩).payment_method } := by
  show ((addKeys 1 sales_df).map _).get _ = _
  rw [List.get_map]
  have hb : i < (addKeys 1 sales_df).length := by
    rw [addKeys_length]; exact hi
  have := addKeys_get sales_df 1 i hb
  simp only [this]
  simp [Nat.add_comm 1 i]

theorem create_performance_fact_get (performance_df : List PerfRow)
    (product_dim : List (Nat × ProductsRow)) (date_dim : List DateDimRow)
    (i : Nat) (hi : i < performance_df.length) :
    (create_performance_fact performance_df product_dim date_dim).get
        ⟨i, by rw [create_performance_fact_length]; exact hi⟩ =
      { performance_key := i + 1
        date_key := perfDateKey (performance_df.get ⟨i, hi⟩).year
          (performance_df.get ⟨i, hi⟩).month
        product_key := dictGet (product_dim.map fun p =>
          (p.2.product_id, p.1)) (performance_df.get ⟨i, hi⟩).product_id
        energy_consumption_kwh :=
          (performance_df.get ⟨i, hi⟩).energy_consumption_kwh
        failure_rate := (performance_df.get ⟨i, hi⟩).failure_rate
        customer_satisfaction :=
          (performance_df.get ⟨i, hi⟩).customer_satisfaction
        return_rate := (performance_df.get ⟨i, hi⟩).return_rate
        warranty_claims := (performance_df.get ⟨i, hi⟩).warranty_claims } := by
  show ((addKeys 1 performance_df).map _).get _ = _
  rw [List.get_map]
  have hb : i < (addKeys 1 performance_df).length := by
    rw [addKeys_length]; exact hi
  have := addKeys_get performance_df 1 i hb
  simp only [this]
  simp [Nat.add_comm 1 i]

theorem dictGet_eq_none (pairs : List (String × Nat)) (k : String)
    (h : k ∉ pairs.map Prod.fst) : dictGet pairs k = none := by
  unfold dictGet
  rw [List.find?_eq_none.mpr]
  · rfl
  · intro x hx
    rw [List.mem_reverse] at hx
    have : x.1 ∈ pairs.map Prod.fst := List.mem_map_of_mem Prod.fst hx
    simp only [beq_iff_eq]
    intro hk
    exact h (hk ▸ this)

theorem perfDateKey_eq (y m : Nat) (hm : m ≤ 99) :
    perfDateKey y m = y * 10000 + m * 100 + 1 := by
  have hlm : (zfill2 (strDigits m)).length = 2 :=
    length_zfill2 _ (length_strDigits_le_two _ hm)
  rw [perfDateKey, valOfMSD_append, valOfMSD_append, hlm,
    valOfMSD_zfill2, valOfMSD_strDigits, valOfMSD_strDigits]
  have h01 : valOfMSD [0, 1] = 1 := by decide
  rw [h01]
  norm_num
  ring

/-- C1: each entity dimension build keeps exactly the input rows in input
order, pairs row `i` (0-based) with surrogate key `i + 1` — a dense
sequence `1..N` — and places the surrogate key as the first column. -/
theorem claim1_dimension_builds_dense_keys (products_df : List ProductsRow)
    (customers_df : List CustomersRow) (stores_df : List StoresRow) :
    ((create_product_dimension products_df).length = products_df.length ∧
      (create_product_dimension products_df).map Prod.snd = products_df ∧
      (create_product_dimension products_df).map Prod.fst =
        List.range' 1 products_df.length ∧
      productDimCols.head? = some "product_key") ∧
    ((create_customer_dimension customers_df).length = customers_df.length ∧
      (create_customer_dimension customers_df).map Prod.snd = customers_df ∧
      (create_customer_dimension customers_df).map Prod.fst =
        List.range' 1 customers_df.length ∧
      customerDimCols.head? = some "customer_key") ∧
    ((create_store_dimension stores_df).length = stores_df.length ∧
      (create_store_dimension stores_df).map Prod.snd = stores_df ∧
      (create_store_dimension stores_df).map Prod.fst =
        List.range' 1 stores_df.length ∧
      storeDimCols.head? = some "store_key") :=
  ⟨⟨addKeys_length 1 products_df, addKeys_map_snd 1 products_df,
    addKeys_map_fst products_df 1, rfl⟩,
   ⟨addKeys_length 1 customers_df, addKeys_map_snd 1 customers_df,
    addKeys_map_fst customers_df 1, rfl⟩,
   ⟨addKeys_length 1 stores_df, addKeys_map_snd 1 stores_df,
    addKeys_map_fst stores_df 1, rfl⟩⟩

/-- C7: the whole build is a deterministic function of its five input
tables — equal inputs give equal output schemas. -/
theorem claim7_build_deterministic (products_df products_df' : List ProductsRow)
    (customers_df customers_df' : List CustomersRow)
    (stores_df stores_df' : List StoresRow)
    (sales_df sales_df' : List SalesRow)
    (performance_df performance_df' : List PerfRow)
    (h1 : products_df = products_df') (h2 : customers_df = customers_df')
    (h3 : stores_df = stores_df') (h4 : sales_df = sales_df')
    (h5 : performance_df = performance_df') :
    build_star_schema products_df customers_df stores_df sales_df
        performance_df =
      build_star_schema products_df' customers_df' stores_df' sales_df'
        performance_df' := by
  subst h1; subst h2; subst h3; subst h4; subst h5; rfl

theorem claim7_build_deterministic_witness :
    build_star_schema [] [] [] [] [] = build_star_schema [] [] [] [] [] :=
  claim7_build_deterministic [] [] [] [] [] [] [] [] [] []
    rfl rfl rfl rfl rfl

/-- C8: no deduplication — when two input rows share a natural key, both
survive into the product dimension, at their original positions, with the
distinct surrogate keys `i + 1` and `j + 1`. -/
theorem claim8_no_deduplication (products_df : List ProductsRow)
    (i j : Nat) (hij : i < j) (hj : j < products_df.length)
    (hdup : (products_df.get ⟨i, Nat.lt_trans hij hj⟩).product_id =
      (products_df.get ⟨j, hj⟩).product_id) :
    (create_product_dimension products_df).length = products_df.length ∧
    (create_product_dimension products_df).get
        ⟨i, by rw [create_product_dimension, addKeys_length]
               exact Nat.lt_trans hij hj⟩ =
      (i + 1, products_df.get ⟨i, Nat.lt_trans hij hj⟩) ∧
    (create_product_dimension products_df).get
        ⟨j, by rw [create_product_dimension, addKeys_length]; exact hj⟩ =
      (j + 1, products_df.get ⟨j, hj⟩) ∧
    i + 1 ≠ j + 1 := by
  refine ⟨addKeys_length 1 products_df, ?_, ?_, by omega⟩
  · have hb : i < (addKeys 1 products_df).length := by
      rw [addKeys_length]; exact Nat.lt_trans hij hj
    have := addKeys_get products_df 1 i hb
    simpa [Nat.add_comm 1 i] using this
  · have hb : j < (addKeys 1 products_df).length := by
      rw [addKeys_length]; exact hj
    have := addKeys_get products_df 1 j hb
    simpa [Nat.add_comm 1 j] using this

/-- A two-row product table with a duplicated natural key, for the C8
witness. -/
def dupProductsRow (nm : String) : ProductsRow :=
  { product_id := "P1", product_name := Value.vStr nm
    category := Value.vNull, subcategory := Value.vNull
    energy_rating := Value.vNull, price := Value.vNull
    manufacturing_cost := Value.vNull, warranty_years := Value.vNull
    weight_kg := Value.vNull, profit_margin := Value.vNull
    launch_date := Value.vNull }

theorem claim8_no_deduplication_witness :
    (create_product_dimension [dupProductsRow "a", dupProductsRow "b"]).length
        = 2 ∧
    (create_product_dimension [dupProductsRow "a", dupProductsRow "b"]).get
        ⟨0, by decide⟩ = (1, dupProductsRow "a") ∧
    (create_product_dimension [dupProductsRow "a", dupProductsRow "b"]).get
        ⟨1, by decide⟩ = (2, dupProductsRow "b") ∧
    (0 : Nat) + 1 ≠ 1 + 1 := by
  have h := claim8_no_deduplication [dupProductsRow "a", dupProductsRow "b"]
    0 1 (by decide) (by decide) (by decide)
  exact h

/-- C2: `create_sales_fact` never drops a row — the fact table has exactly
one row per input sales row — and a row whose natural key is missing from
the corresponding dimension gets a null (`none`) foreign key there. -/
theorem claim2_unmatched_keys_null (sales_df : List SalesRow)
    (product_dim : List (Nat × ProductsRow))
    (customer_dim : List (Nat × CustomersRow))
    (store_dim : List (Nat × StoresRow)) (date_dim : List DateDimRow)
    (i : Nat) (hi : i < sales_df.length) :
    (create_sales_fact sales_df product_dim customer_dim store_dim
      date_dim).length = sales_df.length ∧
    ((sales_df.get ⟨i, hi⟩).product_id ∉
        product_dim.map (fun p => p.2.product_id) →
      ((create_sales_fact sales_df product_dim customer_dim store_dim
          date_dim).get ⟨i, by rw [create_sales_fact_length]; exact hi⟩
        ).product_key = none) ∧
    ((sales_df.get ⟨i, hi⟩).customer_id ∉
        customer_dim.map (fun p => p.2.customer_id) →
      ((create_sales_fact sales_df product_dim customer_dim store_dim
          date_dim).get ⟨i, by rw [create_sales_fact_length]; exact hi⟩
        ).customer_key = none) ∧
    ((sales_df.get ⟨i, hi⟩).store_id ∉
        store_dim.map (fun p => p.2.store_id) →
      ((create_sales_fact sales_df product_dim customer_dim store_dim
          date_dim).get ⟨i, by rw [create_sales_fact_length]; exact hi⟩
        ).store_key = none) := by
  refine ⟨create_sales_fact_length .., ?_, ?_, ?_⟩ <;>
    intro hnot <;>
    rw [create_sales_fact_get sales_df product_dim customer_dim store_dim
      date_dim i hi] <;>
    simp only [] <;>
    apply dictGet_eq_none <;>
    · intro hmem
      apply hnot
      rw [List.map_map] at hmem
      simpa using hmem

/-- A sales row referencing the given natural keys, with all carried
measures null (witness input). -/
def mkSalesRow (pid cid sid : String) (dt : Date) : SalesRow :=
  { transaction_id := Value.vNull, transaction_date := dt
    product_id := pid, customer_id := cid, store_id := sid
    quantity := Value.vNull, unit_price := Value.vNull
    discount := Value.vNull, final_price := Value.vNull
    total_amount := Value.vNull, payment_method := Value.vNull }

/-- A products row with the given natural key and null attributes
(witness input). -/
def mkProductsRow (pid : String) : ProductsRow :=
  { product_id := pid, product_name := Value.vNull
    category := Value.vNull, subcategory := Value.vNull
    energy_rating := Value.vNull, price := Value.vNull
    manufacturing_cost := Value.vNull, warranty_years := Value.vNull
    weight_kg := Value.vNull, profit_margin := Value.vNull
    launch_date := Value.vNull }

theorem claim2_unmatched_keys_null_witness :
    (create_sales_fact [mkSalesRow "P9" "C9" "S9" ⟨2022, 5, 5⟩]
      (create_product_dimension [mkProductsRow "P1"]) [] [] []).length = 1 ∧
    (("P9" : String) ∉
        (create_product_dimension [mkProductsRow "P1"]).map
          (fun p => p.2.product_id) →
      ((create_sales_fact [mkSalesRow "P9" "C9" "S9" ⟨2022, 5, 5⟩]
          (create_product_dimension [mkProductsRow "P1"]) [] [] []).get
        ⟨0, by decide⟩).product_key = none) ∧
    ((create_sales_fact [mkSalesRow "P9" "C9" "S9" ⟨2022, 5, 5⟩]
        (create_product_dimension [mkProductsRow "P1"]) [] [] []).get
      ⟨0, by decide⟩).product_key = none ∧
    ((create_sales_fact [mkSalesRow "P9" "C9" "S9" ⟨2022, 5, 5⟩]
        (create_product_dimension [mkProductsRow "P1"]) [] [] []).get
      ⟨0, by decide⟩).customer_key = none ∧
    ((create_sales_fact [mkSalesRow "P9" "C9" "S9" ⟨2022, 5, 5⟩]
        (create_product_dimension [mkProductsRow "P1"]) [] [] []).get
      ⟨0, by decide⟩).store_key = none := by
  have h := claim2_unmatched_keys_null
    [mkSalesRow "P9" "C9" "S9" ⟨2022, 5, 5⟩]
    (create_product_dimension [mkProductsRow "P1"]) [] [] [] 0 (by decide)
  refine ⟨h.1, h.2.1, h.2.1 (by decide), h.2.2.1 (by decide),
    h.2.2.2 (by decide)⟩

/-- C5: every performance fact row's `date_key` is the first day of the
row's (year, month) in `YYYYMMDD` form. -/
theorem claim5_performance_date_key (performance_df : List PerfRow)
    (product_dim : List (Nat × ProductsRow)) (date_dim : List DateDimRow)
    (i : Nat) (hi : i < performance_df.length)
    (hy : 1000 ≤ (performance_df.get ⟨i, hi⟩).year)
    (hy' : (performance_df.get ⟨i, hi⟩).year ≤ 9999)
    (hm : 1 ≤ (performance_df.get ⟨i, hi⟩).month)
    (hm' : (performance_df.get ⟨i, hi⟩).month ≤ 12) :
    ((create_performance_fact performance_df product_dim date_dim).get
        ⟨i, by rw [create_performance_fact_length]; exact hi⟩).date_key =
      (performance_df.get ⟨i, hi⟩).year * 10000 +
        (performance_df.get ⟨i, hi⟩).month * 100 + 1 := by
  rw [create_performance_fact_get performance_df product_dim date_dim i hi]
  exact perfDateKey_eq _ _ (by omega)

/-- A performance row with the given key fields and null measures
(witness input). -/
def mkPerfRow (pid : String) (y m : Nat) : PerfRow :=
  { product_id := pid, year := y, month := m
    energy_consumption_kwh := Value.vNull, failure_rate := Value.vNull
    customer_satisfaction := Value.vNull, return_rate := Value.vNull
    warranty_claims := Value.vNull }

theorem claim5_performance_date_key_witness :
    ((create_performance_fact [mkPerfRow "P1" 2022 3] [] []).get
        ⟨0, by decide⟩).date_key = 20220301 := by
  have h := claim5_performance_date_key [mkPerfRow "P1" 2022 3] [] [] 0
    (by decide) (by decide) (by decide) (by decide) (by decide)
  simpa using h

theorem addKeys_pairs_fst {α : Type} (key : α → String) :
    ∀ (s : Nat) (l : List α),
      ((addKeys s l).map fun p => (key p.2, p.1)).map Prod.fst = l.map key := by
  intro s l
  induction l generalizing s with
  | nil => rfl
  | cons a rs ih => simp [addKeys, ih]

theorem dictGet_cons (x : String × Nat) (rest : List (String × Nat))
    (k : String) :
    dictGet (x :: rest) k =
      Option.or (dictGet rest k) (if x.1 = k then some x.2 else none) := by
  unfold dictGet
  rw [List.reverse_cons, List.find?_append]
  cases h : List.find? (fun p => p.1 == k) rest.reverse with
  | none =>
      by_cases hx : x.1 = k
      · simp [List.find?, hx, Option.or]
      · have hbeq : (x.1 == k) = false := beq_eq_false_iff_ne.mpr hx
        simp [List.find?, hbeq, hx, Option.or]
  | some v => simp [Option.or]

/-- The dict built from (natural key, surrogate key) pairs in dimension
order resolves a key to the surrogate of its LAST occurrence: Python
`dict(zip(...))` keeps the final binding for a repeated key. -/
theorem dictGet_addKeys_lastOcc {α : Type} (key : α → String) (k : String) :
    ∀ (l : List α) (s j : Nat) (hj : j < l.length),
      key (l.get ⟨j, hj⟩) = k →
      (∀ t (ht : t < l.length), j < t → key (l.get ⟨t, ht⟩) ≠ k) →
      dictGet ((addKeys s l).map fun p => (key p.2, p.1)) k = some (s + j) := by
  intro l
  induction l with
  | nil => intro s j hj; exact absurd hj (by simp)
  | cons a rs ih =>
      intro s j hj hget hlast
      rw [show addKeys s (a :: rs) = (s, a) :: addKeys (s + 1) rs from rfl,
        List.map_cons, dictGet_cons]
      cases j with
      | zero =>
          have hnone :
              dictGet ((addKeys (s + 1) rs).map fun p => (key p.2, p.1)) k =
                none := by
            apply dictGet_eq_none
            rw [addKeys_pairs_fst]
            intro hmem
            obtain ⟨row, hrow, hrowk⟩ := List.mem_map.mp hmem
            obtain ⟨n, hn⟩ := List.mem_iff_get.mp hrow
            apply hlast (n.1 + 1) (by simpa using n.2) (Nat.succ_pos n.1)
            rw [List.get_cons_succ]
            rw [show (⟨n.1, by simpa using n.2⟩ : Fin rs.length) = n from rfl,
              hn]
            exact hrowk
          rw [hnone]
          simp only [Option.or]
          have : key a = k := hget
          simp [this]
      | succ j' =>
          have hj' : j' < rs.length := by simpa using hj
          have hget' : key (rs.get ⟨j', hj'⟩) = k := by
            rw [← hget]; rfl
          have hlast' : ∀ t (ht : t < rs.length), j' < t →
              key (rs.get ⟨t, ht⟩) ≠ k := by
            intro t htl htgt
            have := hlast (t + 1) (by simpa using htl) (by omega)
            rw [List.get_cons_succ] at this
            exact this
          rw [ih (s + 1) j' hj' hget' hlast']
          simp only [Option.or]
          congr 1
          omega

/-- C4: a sales row whose natural key occurs exactly once in the product
dimension resolves to that occurrence's surrogate key (`j + 1` for 0-based
input position `j`); in particular `P2` among `P1, P2, P3` resolves to 2. -/
theorem claim4_unique_key_resolves (products_df : List ProductsRow)
    (sales_df : List SalesRow) (customer_dim : List (Nat × CustomersRow))
    (store_dim : List (Nat × StoresRow)) (date_dim : List DateDimRow)
    (i j : Nat) (hi : i < sales_df.length) (hj : j < products_df.length)
    (hmatch : (products_df.get ⟨j, hj⟩).product_id =
      (sales_df.get ⟨i, hi⟩).product_id)
    (huniq : ∀ t (ht : t < products_df.length), t ≠ j →
      (products_df.get ⟨t, ht⟩).product_id ≠
        (sales_df.get ⟨i, hi⟩).product_id) :
    ((create_sales_fact sales_df (create_product_dimension products_df)
        customer_dim store_dim date_dim).get
      ⟨i, by rw [create_sales_fact_length]; exact hi⟩).product_key =
      some (j + 1) := by
  rw [create_sales_fact_get sales_df (create_product_dimension products_df)
    customer_dim store_dim date_dim i hi]
  have h := dictGet_addKeys_lastOcc (fun r => r.product_id)
    (sales_df.get ⟨i, hi⟩).product_id products_df 1 j hj hmatch
    (fun t ht htgt => huniq t ht (by omega))
  show dictGet ((addKeys 1 products_df).map fun p =>
    (p.2.product_id, p.1)) (sales_df.get ⟨i, hi⟩).product_id = some (j + 1)
  rw [h]
  congr 1
  omega

theorem claim4_unique_key_resolves_witness :
    ((create_sales_fact [mkSalesRow "P2" "C1" "S1" ⟨2022, 1, 1⟩]
        (create_product_dimension
          [mkProductsRow "P1", mkProductsRow "P2", mkProductsRow "P3"])
        [] [] []).get ⟨0, by decide⟩).product_key = some 2 := by
  have h := claim4_unique_key_resolves
    [mkProductsRow "P1", mkProductsRow "P2", mkProductsRow "P3"]
    [mkSalesRow "P2" "C1" "S1" ⟨2022, 1, 1⟩] [] [] [] 0 1
    (by decide) (by decide) (by decide)
    (by intro t ht htne
        have ht3 : t < 3 := by simpa using ht
        interval_cases t
        · simp [mkProductsRow, mkSalesRow]
        · exact absurd rfl htne
        · simp [mkProductsRow, mkSalesRow])
  simpa using h

/-- C10: with a duplicated natural key in the product dimension, both the
sales fact and the performance fact resolve that key to the surrogate of
its LAST occurrence (`j + 1`), which differs from the earlier occurrence's
key (`t + 1`) — so the key→surrogate mapping is not the bijection the spec
assumes under duplicates. -/
theorem claim10_duplicates_resolve_to_last (products_df : List ProductsRow)
    (sales_df : List SalesRow) (performance_df : List PerfRow)
    (customer_dim : List (Nat × CustomersRow))
    (store_dim : List (Nat × StoresRow)) (date_dim : List DateDimRow)
    (pid : String) (i ip t j : Nat)
    (hi : i < sales_df.length) (hip : ip < performance_df.length)
    (ht : t < products_df.length) (hj : j < products_df.length)
    (htj : t < j)
    (hkt : (products_df.get ⟨t, ht⟩).product_id = pid)
    (hkj : (products_df.get ⟨j, hj⟩).product_id = pid)
    (hlast : ∀ u (hu : u < products_df.length), j < u →
      (products_df.get ⟨u, hu⟩).product_id ≠ pid)
    (hsi : (sales_df.get ⟨i, hi⟩).product_id = pid)
    (hpi : (performance_df.get ⟨ip, hip⟩).product_id = pid) :
    ((create_sales_fact sales_df (create_product_dimension products_df)
        customer_dim store_dim date_dim).get
      ⟨i, by rw [create_sales_fact_length]; exact hi⟩).product_key =
      some (j + 1) ∧
    ((create_performance_fact performance_df
        (create_product_dimension products_df) date_dim).get
      ⟨ip, by rw [create_performance_fact_length]; exact hip⟩).product_key =
      some (j + 1) ∧
    j + 1 ≠ t + 1 := by
  have hdict := dictGet_addKeys_lastOcc (fun r => r.product_id) pid
    products_df 1 j hj hkj hlast
  refine ⟨?_, ?_, by omega⟩
  · rw [create_sales_fact_get sales_df
      (create_product_dimension products_df) customer_dim store_dim
      date_dim i hi]
    show dictGet ((addKeys 1 products_df).map fun p =>
      (p.2.product_id, p.1)) (sales_df.get ⟨i, hi⟩).product_id =
      some (j + 1)
    rw [hsi, hdict]
    congr 1
    omega
  · rw [create_performance_fact_get performance_df
      (create_product_dimension products_df) date_dim ip hip]
    show dictGet ((addKeys 1 products_df).map fun p =>
      (p.2.product_id, p.1)) (performance_df.get ⟨ip, hip⟩).product_id =
      some (j + 1)
    rw [hpi, hdict]
    congr 1
    omega

theorem claim10_duplicates_resolve_to_last_witness :
    ((create_sales_fact [mkSalesRow "PA" "C1" "S1" ⟨2022, 1, 1⟩]
        (create_product_dimension [mkProductsRow "PA", mkProductsRow "PA"])
        [] [] []).get ⟨0, by decide⟩).product_key = some 2 ∧
    ((create_performance_fact [mkPerfRow "PA" 2022 3]
        (create_product_dimension [mkProductsRow "PA", mkProductsRow "PA"])
        []).get ⟨0, by decide⟩).product_key = some 2 ∧
    (1 : Nat) + 1 ≠ 0 + 1 := by
  have h := claim10_duplicates_resolve_to_last
    [mkProductsRow "PA", mkProductsRow "PA"]
    [mkSalesRow "PA" "C1" "S1" ⟨2022, 1, 1⟩] [mkPerfRow "PA" 2022 3]
    [] [] [] "PA" 0 0 0 1
    (by decide) (by decide) (by decide) (by decide) (by decide)
    (by decide) (by decide)
    (by intro u hu hgt
        have hu2 : u < 2 := by simpa using hu
        omega)
    (by decide) (by decide)
  simpa using h

set_option maxRecDepth 1000000 in
theorem dateDim_length_check : create_date_dimension.length = 730 := by
  decide

set_option maxRecDepth 1000000 in
theorem dateDim_date_id_check :
    create_date_dimension.map (fun r => r.date_id) = List.range' 1 730 := by
  decide

set_option maxRecDepth 1000000 in
theorem dateDim_head_check :
    (create_date_dimension.map (fun r => r.date)).head? =
      some ⟨2022, 1, 1⟩ := by
  decide

set_option maxRecDepth 1000000 in
theorem dateDim_last_check :
    (create_date_dimension.map (fun r => r.date)).getLast? =
      some ⟨2023, 12, 31⟩ := by
  decide

set_option maxRecDepth 1000000 in
theorem dateDim_chain_next_check :
    chainB (fun a b => decide (b.date = nextDay a.date))
      create_date_dimension = true := by
  decide

set_option maxRecDepth 1000000 in
theorem dateDim_key_mono_check :
    chainB (fun a b => decide (a.date_key < b.date_key))
      create_date_dimension = true := by
  decide

set_option maxRecDepth 1000000 in
theorem dateDim_key_bounds_check :
    allB (fun r => decide (20220101 ≤ r.date_key ∧ r.date_key ≤ 20231231))
      create_date_dimension = true := by
  decide

/-- C6: the date dimension has one row per calendar day of
2022-01-01 … 2023-12-31 (730 consecutive days, first and last as stated),
`date_id` is the dense sequence `1..730` in calendar order, and the
`date_key` column is strictly increasing along the rows — hence unique and
monotone in calendar order. -/
theorem claim6_date_dimension_invariants :
    create_date_dimension.length = 730 ∧
    create_date_dimension.map (fun r => r.date_id) = List.range' 1 730 ∧
    (create_date_dimension.map (fun r => r.date)).head? =
      some ⟨2022, 1, 1⟩ ∧
    List.Chain' (fun a b => b.date = nextDay a.date)
      create_date_dimension ∧
    (create_date_dimension.map (fun r => r.date)).getLast? =
      some ⟨2023, 12, 31⟩ ∧
    (create_date_dimension.map (fun r => r.date_key)).Pairwise (· < ·) ∧
    (create_date_dimension.map (fun r => r.date_key)).Nodup := by
  have hchain : List.Chain'
      (fun a b : DateDimRow => a.date_key < b.date_key)
      create_date_dimension :=
    (chainB_chain' _ _ dateDim_key_mono_check).imp
      (fun a b h => of_decide_eq_true h)
  have hpw : List.Pairwise
      (fun a b : DateDimRow => a.date_key < b.date_key)
      create_date_dimension := by
    haveI : IsTrans DateDimRow (fun a b => a.date_key < b.date_key) :=
      ⟨fun a b c h1 h2 => Nat.lt_trans h1 h2⟩
    exact List.chain'_iff_pairwise.mp hchain
  have hmap : (create_date_dimension.map (fun r => r.date_key)).Pairwise
      (· < ·) := List.pairwise_map.mpr hpw
  refine ⟨dateDim_length_check, dateDim_date_id_check, dateDim_head_check,
    ?_, dateDim_last_check, hmap, ?_⟩
  · exact (chainB_chain' _ _ dateDim_chain_next_check).imp
      (fun a b h => of_decide_eq_true h)
  · exact hmap.imp (fun h => Nat.ne_of_lt h)

theorem allB_imp (f g : α → Bool) (hfg : ∀ x, f x = true → g x = true) :
    ∀ l, allB f l = true → allB g l = true := by
  intro l
  induction l with
  | nil => intro _; rfl
  | cons a t ih =>
      intro h
      rw [allB, Bool.and_eq_true] at h ⊢
      exact ⟨hfg a h.1, ih h.2⟩

theorem daysInMonth_le_31 (y m : Nat) : daysInMonth y m ≤ 31 := by
  unfold daysInMonth
  split
  · split <;> norm_num
  · split <;> norm_num

theorem valid_out_of_range_year (d : Date) (hv : ValidDate d)
    (h : ¬(dateLe ⟨2022, 1, 1⟩ d = true ∧ dateLe d ⟨2023, 12, 31⟩ = true)) :
    d.year < 2022 ∨ 2023 < d.year := by
  obtain ⟨hm1, hm2, hd1, hd2⟩ := hv
  have hd31 : d.day ≤ 31 := le_trans hd2 (daysInMonth_le_31 d.year d.month)
  simp only [dateLe, decide_eq_true_eq] at h
  omega

theorem valid_out_of_range_key (d : Date) (hv : ValidDate d)
    (h : ¬(dateLe ⟨2022, 1, 1⟩ d = true ∧ dateLe d ⟨2023, 12, 31⟩ = true)) :
    ymdKey d < 20220101 ∨ 20231231 < ymdKey d := by
  have hy := valid_out_of_range_year d hv h
  obtain ⟨hm1, hm2, hd1, hd2⟩ := hv
  have hd31 : d.day ≤ 31 := le_trans hd2 (daysInMonth_le_31 d.year d.month)
  rw [ymdKey_eq d (by omega) (by omega)]
  omega

theorem valid_in_range_key_bounds (d : Date) (hv : ValidDate d)
    (h1 : dateLe ⟨2022, 1, 1⟩ d = true) (h2 : dateLe d ⟨2023, 12, 31⟩ = true) :
    20220101 ≤ ymdKey d ∧ ymdKey d ≤ 20231231 := by
  obtain ⟨hm1, hm2, hd1, hd2⟩ := hv
  have hd31 : d.day ≤ 31 := le_trans hd2 (daysInMonth_le_31 d.year d.month)
  rw [ymdKey_eq d (by omega) (by omega)]
  simp only [dateLe, decide_eq_true_eq] at h1 h2
  omega

theorem dateRef_none_of_out_of_bounds (k : Nat)
    (h : k < 20220101 ∨ 20231231 < k) :
    dateRef create_date_dimension k = none := by
  unfold dateRef
  apply List.find?_eq_none.mpr
  intro r hr
  have hb := of_decide_eq_true (allB_forall _ _ dateDim_key_bounds_check r hr)
  simp only [beq_iff_eq]
  omega

/-- C3 counterexample: the claim is false as stated.  For the sales row
dated 2021-05-05 — a valid date outside the dimension's 2022-01-01 …
2023-12-31 range — the emitted fact row CARRIES `date_key = 20210505`,
which lies strictly below every key of the date dimension, i.e. outside
the dimension's key range (the source computes `date_key` arithmetically
from the date and never joins it against the dimension). -/
theorem claim3_counterexample :
    ¬(dateLe ⟨2022, 1, 1⟩ (⟨2021, 5, 5⟩ : Date) = true ∧
      dateLe (⟨2021, 5, 5⟩ : Date) ⟨2023, 12, 31⟩ = true) ∧
    ((create_sales_fact [mkSalesRow "P1" "C1" "S1" ⟨2021, 5, 5⟩] [] [] []
        create_date_dimension).get ⟨0, by decide⟩).date_key = 20210505 ∧
    allB (fun r => decide (20210505 < r.date_key)) create_date_dimension =
      true := by
  refine ⟨by decide, by decide, ?_⟩
  exact allB_imp _ _
    (fun r h => by
      have := of_decide_eq_true h
      exact decide_eq_true (by omega))
    create_date_dimension dateDim_key_bounds_check

/-- C3 (amended): the fact row's `date_key` is computed from the
transaction date without consulting the date dimension; for a valid
transaction date outside 2022-01-01 … 2023-12-31 that key matches NO date
dimension row, so the dashboard-side join resolves to a null date
reference (never to a nearby in-range date), while for a date inside the
range the key lies within the dimension's key span
20220101 … 20231231. -/
theorem claim3_out_of_range_dates_unresolved (sales_df : List SalesRow)
    (product_dim : List (Nat × ProductsRow))
    (customer_dim : List (Nat × CustomersRow))
    (store_dim : List (Nat × StoresRow)) (i : Nat)
    (hi : i < sales_df.length)
    (hv : ValidDate (sales_df.get ⟨i, hi⟩).transaction_date) :
    (¬(dateLe ⟨2022, 1, 1⟩ (sales_df.get ⟨i, hi⟩).transaction_date = true ∧
        dateLe (sales_df.get ⟨i, hi⟩).transaction_date ⟨2023, 12, 31⟩ =
          true) →
      dateRef create_date_dimension
        ((create_sales_fact sales_df product_dim customer_dim store_dim
            create_date_dimension).get
          ⟨i, by rw [create_sales_fact_length]; exact hi⟩).date_key =
        none) ∧
    ((dateLe ⟨2022, 1, 1⟩ (sales_df.get ⟨i, hi⟩).transaction_date = true ∧
        dateLe (sales_df.get ⟨i, hi⟩).transaction_date ⟨2023, 12, 31⟩ =
          true) →
      20220101 ≤ ((create_sales_fact sales_df product_dim customer_dim
          store_dim create_date_dimension).get
        ⟨i, by rw [create_sales_fact_length]; exact hi⟩).date_key ∧
      ((create_sales_fact sales_df product_dim customer_dim store_dim
          create_date_dimension).get
        ⟨i, by rw [create_sales_fact_length]; exact hi⟩).date_key ≤
        20231231) := by
  have hget := create_sales_fact_get sales_df product_dim customer_dim
    store_dim create_date_dimension i hi
  constructor
  · intro hout
    rw [hget]
    exact dateRef_none_of_out_of_bounds _ (valid_out_of_range_key _ hv hout)
  · intro hin
    rw [hget]
    exact valid_in_range_key_bounds _ hv hin.1 hin.2

theorem claim3_out_of_range_dates_unresolved_witness :
    (dateRef create_date_dimension
      ((create_sales_fact [mkSalesRow "P1" "C1" "S1" ⟨2021, 5, 5⟩] [] [] []
          create_date_dimension).get ⟨0, by decide⟩).date_key = none) ∧
    (20220101 ≤ ((create_sales_fact [mkSalesRow "P1" "C1" "S1" ⟨2022, 7, 9⟩]
        [] [] [] create_date_dimension).get ⟨0, by decide⟩).date_key ∧
      ((create_sales_fact [mkSalesRow "P1" "C1" "S1" ⟨2022, 7, 9⟩] [] [] []
          create_date_dimension).get ⟨0, by decide⟩).date_key ≤ 20231231) := by
  constructor
  · have h := claim3_out_of_range_dates_unresolved
      [mkSalesRow "P1" "C1" "S1" ⟨2021, 5, 5⟩] [] [] [] 0 (by decide)
      (by decide)
    exact h.1 (by decide)
  · have h := claim3_out_of_range_dates_unresolved
      [mkSalesRow "P1" "C1" "S1" ⟨2022, 7, 9⟩] [] [] [] 0 (by decide)
      (by decide)
    exact h.2 (by decide)

theorem takeCell_append (c : List Char) :
    ∀ r : List Char, (∀ ch ∈ c, ¬(ch = ',' ∨ ch = '\n')) →
      (r = [] ∨ (∃ t, r = ',' :: t) ∨ (∃ t, r = '\n' :: t)) →
      takeCell (c ++ r) = (c, r) := by
  induction c with
  | nil =>
      intro r _ hr
      rcases hr with rfl | ⟨t, rfl⟩ | ⟨t, rfl⟩
      · rfl
      · simp [takeCell]
      · simp [takeCell]
  | cons a c ih =>
      intro r hc hr
      have ha : ¬(a = ',' ∨ a = '\n') := hc a (List.mem_cons_self a c)
      rw [List.cons_append]
      simp only [takeCell, if_neg ha]
      rw [ih r (fun ch h => hc ch (List.mem_cons_of_mem a h)) hr]

theorem takeQCell_append (c : List Char) :
    ∀ r : List Char, (r = [] ∨ ∃ ch t, r = ch :: t ∧ ¬ch = '"') →
      takeQCell (escapeQuotes c ++ '"' :: r) = (c, r) := by
  induction c with
  | nil =>
      intro r hr
      rcases hr with rfl | ⟨ch, t, rfl, hch⟩
      · simp [escapeQuotes, takeQCell]
      · simp [escapeQuotes, takeQCell, hch]
  | cons a c ih =>
      intro r hr
      by_cases ha : a = '"'
      · subst ha
        show takeQCell (('"' :: '"' :: escapeQuotes c) ++ '"' :: r) = _
        rw [List.cons_append, List.cons_append]
        rw [show takeQCell ('"' :: '"' :: (escapeQuotes c ++ '"' :: r)) =
              ('"' :: (takeQCell (escapeQuotes c ++ '"' :: r)).1,
                (takeQCell (escapeQuotes c ++ '"' :: r)).2) from rfl]
        rw [ih r hr]
      · have he : escapeQuotes (a :: c) = a :: escapeQuotes c := by
          simp only [escapeQuotes, if_neg ha]
        rw [he, List.cons_append]
        rw [takeQCell.eq_def]
        simp only [if_neg ha]
        rw [ih r hr]

theorem scanCell_render (cell : List Char) (r : List Char)
    (hr : r = [] ∨ (∃ t, r = ',' :: t) ∨ (∃ t, r = '\n' :: t)) :
    scanCell (renderCell cell ++ r) = (cell, r) := by
  by_cases hq : needsQuote cell = true
  · rw [renderCell, if_pos hq]
    have hassoc : ('"' :: (escapeQuotes cell ++ ['"'])) ++ r =
        '"' :: (escapeQuotes cell ++ '"' :: r) := by simp
    rw [hassoc]
    rw [show scanCell ('"' :: (escapeQuotes cell ++ '"' :: r)) =
      takeQCell (escapeQuotes cell ++ '"' :: r) from rfl]
    apply takeQCell_append
    rcases hr with rfl | ⟨t, rfl⟩ | ⟨t, rfl⟩
    · exact Or.inl rfl
    · exact Or.inr ⟨',', t, rfl, by decide⟩
    · exact Or.inr ⟨'\n', t, rfl, by decide⟩
  · rw [renderCell, if_neg hq]
    have hall : ∀ ch ∈ cell, ¬ch = ',' ∧ ¬ch = '"' ∧ ¬ch = '\n' := by
      intro ch hch
      have hnp : ¬((ch = ',' || ch = '"' || ch = '\n') = true) := by
        intro hpred
        exact hq (List.any_eq_true.mpr ⟨ch, hch, hpred⟩)
      simp only [Bool.or_eq_true, decide_eq_true_eq] at hnp
      tauto
    cases cell with
    | nil =>
        rw [List.nil_append]
        rcases hr with rfl | ⟨t, rfl⟩ | ⟨t, rfl⟩
        · rfl
        · rw [show scanCell (',' :: t) = takeCell (',' :: t) from rfl]
          simp [takeCell]
        · rw [show scanCell ('\n' :: t) = takeCell ('\n' :: t) from rfl]
          simp [takeCell]
    | cons a cell' =>
        have ha := hall a (List.mem_cons_self a cell')
        rw [List.cons_append, scanCell.eq_def]
        simp only [if_neg ha.2.1]
        rw [← List.cons_append]
        exact takeCell_append (a :: cell') r
          (fun ch h => by have := hall ch h; tauto) hr

theorem parseCells_render (cells : List (List Char)) :
    ∀ (fuel : Nat) (t : List Char), cells ≠ [] → cells.length ≤ fuel →
      parseCells fuel (renderRecord cells ++ '\n' :: t) = (cells, t) := by
  induction cells with
  | nil => intro fuel t h _; exact absurd rfl h
  | cons a cells ih =>
      intro fuel t _ hlen
      cases fuel with
      | zero => simp at hlen
      | succ f =>
          cases cells with
          | nil =>
              rw [show renderRecord [a] = renderCell a from rfl]
              rw [show parseCells (f + 1) (renderCell a ++ '\n' :: t) =
                (match scanCell (renderCell a ++ '\n' :: t) with
                 | (cell, ',' :: rest) =>
                     let q := parseCells f rest
                     (cell :: q.1, q.2)
                 | (cell, '\n' :: rest) => ([cell], rest)
                 | (cell, other) => ([cell], other)) from rfl]
              rw [scanCell_render a ('\n' :: t) (Or.inr (Or.inr ⟨t, rfl⟩))]
              rfl
          | cons b cells' =>
              rw [show renderRecord (a :: b :: cells') =
                renderCell a ++ ',' :: renderRecord (b :: cells') from rfl]
              have hassoc :
                  (renderCell a ++ ',' :: renderRecord (b :: cells')) ++
                    '\n' :: t =
                  renderCell a ++
                    ',' :: (renderRecord (b :: cells') ++ '\n' :: t) := by
                simp
              rw [hassoc]
              rw [show parseCells (f + 1) (renderCell a ++
                  ',' :: (renderRecord (b :: cells') ++ '\n' :: t)) =
                (match scanCell (renderCell a ++
                    ',' :: (renderRecord (b :: cells') ++ '\n' :: t)) with
                 | (cell, ',' :: rest) =>
                     let q := parseCells f rest
                     (cell :: q.1, q.2)
                 | (cell, '\n' :: rest) => ([cell], rest)
                 | (cell, other) => ([cell], other)) from rfl]
              rw [scanCell_render a
                (',' :: (renderRecord (b :: cells') ++ '\n' :: t))
                (Or.inr (Or.inl ⟨_, rfl⟩))]
              rw [show (match ((a : List Char),
                  ',' :: (renderRecord (b :: cells') ++ '\n' :: t)) with
                | (cell, ',' :: rest) =>
                    let q := parseCells f rest
                    (cell :: q.1, q.2)
                | (cell, '\n' :: rest) => ([cell], rest)
                | (cell, other) => ([cell], other)) =
                (a :: (parseCells f
                    (renderRecord (b :: cells') ++ '\n' :: t)).1,
                  (parseCells f
                    (renderRecord (b :: cells') ++ '\n' :: t)).2) from rfl]
              rw [ih f t (by simp) (by simpa using hlen)]

theorem renderRecord_length (cells : List (List Char)) :
    cells.length ≤ (renderRecord cells).length + 1 := by
  induction cells with
  | nil => simp [renderRecord]
  | cons a cs ih =>
      cases cs with
      | nil => simp [renderRecord]
      | cons b cs' =>
          rw [show renderRecord (a :: b :: cs') =
            renderCell a ++ ',' :: renderRecord (b :: cs') from rfl]
          simp only [List.length_append, List.length_cons] at ih ⊢
          omega

theorem renderFile_length (recs : List (List (List Char))) :
    recs.length ≤ (renderFile recs).length := by
  induction recs with
  | nil => simp [renderFile]
  | cons rec recs ih =>
      rw [show renderFile (rec :: recs) =
        renderRecord rec ++ '\n' :: renderFile recs from rfl]
      simp only [List.length_append, List.length_cons]
      omega

theorem parseRecordsAux_render (recs : List (List (List Char))) :
    ∀ fuel : Nat, (∀ rec ∈ recs, rec ≠ []) → recs.length ≤ fuel →
      parseRecordsAux fuel (renderFile recs) = recs := by
  induction recs with
  | nil =>
      intro fuel _ _
      cases fuel with
      | zero => rfl
      | succ f => simp [renderFile, parseRecordsAux]
  | cons rec recs ih =>
      intro fuel hne hlen
      cases fuel with
      | zero => simp at hlen
      | succ f =>
          rw [show renderFile (rec :: recs) =
            renderRecord rec ++ '\n' :: renderFile recs from rfl]
          rw [show parseRecordsAux (f + 1)
              (renderRecord rec ++ '\n' :: renderFile recs) =
            (if (renderRecord rec ++ '\n' :: renderFile recs) = [] then []
             else
               (parseCells
                  ((renderRecord rec ++ '\n' :: renderFile recs).length + 1)
                  (renderRecord rec ++ '\n' :: renderFile recs)).1 ::
                 parseRecordsAux f
                   (parseCells
                     ((renderRecord rec ++ '\n' :: renderFile recs).length +
                       1)
                     (renderRecord rec ++ '\n' :: renderFile recs)).2)
            from rfl]
          rw [if_neg (by simp)]
          have hfuel : rec.length ≤
              (renderRecord rec ++ '\n' :: renderFile recs).length + 1 := by
            have := renderRecord_length rec
            simp only [List.length_append, List.length_cons]
            omega
          rw [parseCells_render rec _ (renderFile recs)
            (hne rec (List.mem_cons_self rec recs)) hfuel]
          rw [ih f (fun r h => hne r (List.mem_cons_of_mem rec h))
            (by simpa using Nat.le_of_succ_le_succ (by simpa using hlen))]

theorem parseCSV_renderFile (recs : List (List (List Char)))
    (hne : ∀ rec ∈ recs, rec ≠ []) :
    parseCSV (renderFile recs) = recs := by
  unfold parseCSV
  apply parseRecordsAux_render recs _ hne
  have := renderFile_length recs
  omega

theorem string_append_ne (dir a b : String) (h : ¬ a = b) :
    ¬ (dir ++ a = dir ++ b) := by
  intro hc
  apply h
  have hd : dir.data ++ a.data = dir.data ++ b.data := by
    have := congrArg String.data hc
    simpa using this
  exact String.ext (List.append_cancel_left hd)

/-- C9: round trip.  Saving a built star schema with `save_star_schema`
and loading it back as the dashboard does yields all six artifacts: each
loads to exactly its written header (the table's column names, so the same
column set) followed by one parsed record per written row (so the same row
count). -/
theorem claim9_round_trip (products_df : List ProductsRow)
    (customers_df : List CustomersRow) (stores_df : List StoresRow)
    (sales_df : List SalesRow) (performance_df : List PerfRow)
    (dir : String) :
    load_star_schema_data
        (save_star_schema
          (build_star_schema products_df customers_df stores_df sales_df
            performance_df) dir) dir =
      some
        ((dateDimCols.map String.toList) ::
            (build_star_schema products_df customers_df stores_df sales_df
              performance_df).date_dim.map dateDimCells,
         (productDimCols.map String.toList) ::
            (build_star_schema products_df customers_df stores_df sales_df
              performance_df).product_dim.map productDimCells,
         (customerDimCols.map String.toList) ::
            (build_star_schema products_df customers_df stores_df sales_df
              performance_df).customer_dim.map customerDimCells,
         (storeDimCols.map String.toList) ::
            (build_star_schema products_df customers_df stores_df sales_df
              performance_df).store_dim.map storeDimCells,
         (salesFactCols.map String.toList) ::
            (build_star_schema products_df customers_df stores_df sales_df
              performance_df).sales_fact.map salesFactCells,
         (perfFactCols.map String.toList) ::
            (build_star_schema products_df customers_df stores_df sales_df
              performance_df).performance_fact.map perfFactCells) := by
  have hd1 : ∀ rec ∈ (dateDimCols.map String.toList) ::
      (build_star_schema products_df customers_df stores_df sales_df
        performance_df).date_dim.map dateDimCells, rec ≠ [] := by
    intro rec h
    rcases List.mem_cons.mp h with rfl | hm
    · simp [dateDimCols]
    · obtain ⟨r, _, rfl⟩ := List.mem_map.mp hm
      simp [dateDimCells]
  have hd2 : ∀ rec ∈ (productDimCols.map String.toList) ::
      (build_star_schema products_df customers_df stores_df sales_df
        performance_df).product_dim.map productDimCells, rec ≠ [] := by
    intro rec h
    rcases List.mem_cons.mp h with rfl | hm
    · simp [productDimCols, productSelectCols]
    · obtain ⟨r, _, rfl⟩ := List.mem_map.mp hm
      simp [productDimCells]
  have hd3 : ∀ rec ∈ (customerDimCols.map String.toList) ::
      (build_star_schema products_df customers_df stores_df sales_df
        performance_df).customer_dim.map customerDimCells, rec ≠ [] := by
    intro rec h
    rcases List.mem_cons.mp h with rfl | hm
    · simp [customerDimCols, customerSelectCols]
    · obtain ⟨r, _, rfl⟩ := List.mem_map.mp hm
      simp [customerDimCells]
  have hd4 : ∀ rec ∈ (storeDimCols.map String.toList) ::
      (build_star_schema products_df customers_df stores_df sales_df
        performance_df).store_dim.map storeDimCells, rec ≠ [] := by
    intro rec h
    rcases List.mem_cons.mp h with rfl | hm
    · simp [storeDimCols, storeSelectCols]
    · obtain ⟨r, _, rfl⟩ := List.mem_map.mp hm
      simp [storeDimCells]
  have hd5 : ∀ rec ∈ (salesFactCols.map String.toList) ::
      (build_star_schema products_df customers_df stores_df sales_df
        performance_df).sales_fact.map salesFactCells, rec ≠ [] := by
    intro rec h
    rcases List.mem_cons.mp h with rfl | hm
    · simp [salesFactCols, salesFactSelectCols]
    · obtain ⟨r, _, rfl⟩ := List.mem_map.mp hm
      simp [salesFactCells]
  have hd6 : ∀ rec ∈ (perfFactCols.map String.toList) ::
      (build_star_schema products_df customers_df stores_df sales_df
        performance_df).performance_fact.map perfFactCells, rec ≠ [] := by
    intro rec h
    rcases List.mem_cons.mp h with rfl | hm
    · simp [perfFactCols, perfFactSelectCols]
    · obtain ⟨r, _, rfl⟩ := List.mem_map.mp hm
      simp [perfFactCells]
  have hne : ∀ (a b : String), ¬ a = b →
      ((dir ++ a) == (dir ++ b)) = false :=
    fun a b h => beq_eq_false_iff_ne.mpr (string_append_ne dir a b h)
  simp only [load_star_schema_data, save_star_schema, readCSVTable,
    List.find?,
    hne "/dim_date.csv" "/dim_product.csv" (by decide),
    hne "/dim_date.csv" "/dim_customer.csv" (by decide),
    hne "/dim_date.csv" "/dim_store.csv" (by decide),
    hne "/dim_date.csv" "/fact_sales.csv" (by decide),
    hne "/dim_date.csv" "/fact_performance.csv" (by decide),
    hne "/dim_product.csv" "/dim_customer.csv" (by decide),
    hne "/dim_product.csv" "/dim_store.csv" (by decide),
    hne "/dim_product.csv" "/fact_sales.csv" (by decide),
    hne "/dim_product.csv" "/fact_performance.csv" (by decide),
    hne "/dim_customer.csv" "/dim_store.csv" (by decide),
    hne "/dim_customer.csv" "/fact_sales.csv" (by decide),
    hne "/dim_customer.csv" "/fact_performance.csv" (by decide),
    hne "/dim_store.csv" "/fact_sales.csv" (by decide),
    hne "/dim_store.csv" "/fact_performance.csv" (by decide),
    hne "/fact_sales.csv" "/fact_performance.csv" (by decide),
    beq_self_eq_true, Option.map_some']
  simp only [parseCSV_renderFile _ hd1, parseCSV_renderFile _ hd2,
    parseCSV_renderFile _ hd3, parseCSV_renderFile _ hd4,
    parseCSV_renderFile _ hd5, parseCSV_renderFile _ hd6]
  rfl
